import Mathlib

/-!
# Verification of the cythonized template engine core

Shallow embedding of the rendering core of `django_templates_cythonized`
(`html.py`, `smartif.py`, `formats.py`, `defaulttags.py`) together with
spec-modelled stand-ins for the pieces of `base.py` / `context.py` that the
repository imports but does not ship in `src/` (variable resolution,
`render_value_in_context`, the context stack).

Python values are modelled by the inductive `PyVal`.  Machine floats are
outside the model (IEEE semantics are not shallow-embeddable); the rational
numbers stand in for Python's float arithmetic where the code converts to
float (`widthratio`), which is faithful for the error-routing properties
proved here.  Python exceptions are modelled by `PyErr` and fallible code
returns `Except PyErr _`.
-/

/-- Python exception kinds relevant to the embedded code. -/
inductive PyErr where
  | typeError
  | valueError
  | keyError
  | indexError
  | attributeError
  | overflowError
  | zeroDivisionError
  | templateSyntaxError
deriving Repr, DecidableEq

/-- Model of the Python values the template core manipulates.
`safeStr` is a `str` tagged as Safe Text (`SafeString`, a `str` subclass);
`callableV r` is a zero-argument callable returning `r`; `obj` is a plain
object carrying named attributes.  Machine floats are outside the model. -/
inductive PyVal where
  | none
  | bool (b : Bool)
  | int (n : Int)
  | str (s : String)
  | safeStr (s : String)
  | list (xs : List PyVal)
  | dict (es : List (String × PyVal))
  | obj (attrs : List (String × PyVal))
  | callableV (ret : PyVal)

/-- Python truthiness (`bool(v)`). -/
def truthy : PyVal → Bool
  | .none => false
  | .bool b => b
  | .int n => n != 0
  | .str s => s ≠ ""
  | .safeStr s => s ≠ ""
  | .list xs => !xs.isEmpty
  | .dict es => !es.isEmpty
  | .obj _ => true
  | .callableV _ => true

/-- Comma-join, as Python does between container elements. -/
def joinComma : List String → String
  | [] => ""
  | [x] => x
  | x :: xs => x ++ ", " ++ joinComma xs

/-- Recursion fuel for functions that recurse through container values.
`PyVal` nests lists of values, so these recursions are bounded by a fuel
parameter (structural on `Nat`, hence kernel-computable); the bound models
Python's own recursion limit and is never reached by the shallow values
the claims are about. -/
def pyFuel : Nat := 1000

/-- Python `str(v)` (`asRepr = false`) and `repr(v)` (`asRepr = true`).
Containers use `repr` on their elements, as Python does; string `repr` is
modelled without quote-escaping corner cases. -/
def pyStrF : Nat → Bool → PyVal → String
  | 0, _, _ => ""
  | fuel + 1, asRepr, v =>
    match v with
    | .none => "None"
    | .bool b => if b then "True" else "False"
    | .int n => toString n
    | .str s => if asRepr then "'" ++ s ++ "'" else s
    | .safeStr s => if asRepr then "'" ++ s ++ "'" else s
    | .list xs => "[" ++ joinComma (xs.map (pyStrF fuel true)) ++ "]"
    | .dict es =>
        "\x7b" ++
          joinComma (es.map (fun kv =>
            "'" ++ kv.1 ++ "': " ++ pyStrF fuel true kv.2)) ++ "\x7d"
    | .obj _ => "<object>"
    | .callableV _ => "<callable>"

/-- Python `str(v)`. -/
def pyStr (v : PyVal) : String := pyStrF pyFuel false v

@[simp] theorem pyStr_str (s : String) : pyStr (.str s) = s := rfl

@[simp] theorem pyStr_safeStr (s : String) : pyStr (.safeStr s) = s := rfl

@[simp] theorem pyStr_int (n : Int) : pyStr (.int n) = toString n := rfl

/-- Is the value a `str` (Python `isinstance(v, str)`, which includes
`SafeString`)? -/
def isStrPy : PyVal → Bool
  | .str _ => true
  | .safeStr _ => true
  | _ => false

/-- Is the value tagged Safe Text (Python `isinstance(v, SafeData)`)? -/
def isSafePy : PyVal → Bool
  | .safeStr _ => true
  | _ => false

/-! ## html.py -/

/-- The five HTML-special characters scanned for by `_fast_escape_str`
(code points 60 `<`, 62 `>`, 38 `&`, 34 `"`, 39 `'`). -/
def isSpecialChar (c : Char) : Bool :=
  c = '<' || c = '>' || c = '&' || c = '"' || c = '\''

/-- Entity form of one character, as produced by Python stdlib
`html.escape` (which replaces `&` first, then `<`, `>`, `"`, `'`;
since every replacement source is a single distinct character and the
introduced entity text is never rewritten by a later replacement, the
chain is equivalent to this per-character map). -/
def escapeChar (c : Char) : String :=
  if c = '&' then "&amp;"
  else if c = '<' then "&lt;"
  else if c = '>' then "&gt;"
  else if c = '"' then "&quot;"
  else if c = '\'' then "&#x27;"
  else String.singleton c

/-- Python stdlib `html.escape(s)` (with `quote=True`, the default),
modelled character-wise. -/
def htmlEscape (s : String) : String :=
  ⟨s.data.flatMap (fun c => (escapeChar c).data)⟩

/-- Does the string contain one of the five HTML-special characters? -/
def hasSpecialStr (s : String) : Bool :=
  s.data.any isSpecialChar

/-- `_fast_escape_str` from `html.py`: scan the characters for
`<ouote>&"'`; if none found return the original string unchanged, else
call `html.escape`. -/
def fastEscapeStr (s : String) : String :=
  if hasSpecialStr s then htmlEscape s else s

/-- `escape` from `html.py`:
`SafeString(_html.escape(str(text)))` — always escapes, even Safe input. -/
def escapePy (text : PyVal) : PyVal :=
  .safeStr (htmlEscape (pyStr text))

/-- `conditional_escape` from `html.py`: Safe input is returned as-is,
otherwise `_fast_escape_str(str(text))` is returned as a plain `str`.
(The `__html__` hook branch concerns external collaborator objects,
which are outside the model's value universe.) -/
def conditionalEscape (text : PyVal) : PyVal :=
  if isSafePy text then text
  else .str (fastEscapeStr (pyStr text))

/-! ### Escaping lemmas -/

theorem escapeChar_not_special (c : Char) (h : isSpecialChar c = false) :
    escapeChar c = String.singleton c := by
  unfold escapeChar
  simp only [isSpecialChar, Bool.or_eq_false_iff, decide_eq_false_iff_not] at h
  obtain ⟨⟨⟨⟨h1, h2⟩, h3⟩, h4⟩, h5⟩ := h
  simp [h1, h2, h3, h4, h5]

theorem flatMap_escape_not_special (cs : List Char)
    (h : cs.any isSpecialChar = false) :
    cs.flatMap (fun c => (escapeChar c).data) = cs := by
  induction cs with
  | nil => rfl
  | cons c cs ih =>
    simp only [List.any_cons, Bool.or_eq_false_iff] at h
    rw [List.flatMap_cons, escapeChar_not_special c h.1, ih h.2]
    rfl

theorem htmlEscape_no_special (s : String) (h : hasSpecialStr s = false) :
    htmlEscape s = s := by
  unfold htmlEscape
  rw [flatMap_escape_not_special s.data h]

/-- Every per-character entity expansion is nonempty. -/
theorem escapeChar_length_pos (c : Char) : 1 ≤ (escapeChar c).data.length := by
  unfold escapeChar
  split
  · decide
  · split
    · decide
    · split
      · decide
      · split
        · decide
        · split
          · decide
          · simp [String.singleton]

/-- A special character expands to an entity of length at least two. -/
theorem escapeChar_length_special (c : Char) (h : isSpecialChar c = true) :
    2 ≤ (escapeChar c).data.length := by
  simp only [isSpecialChar, Bool.or_eq_true, decide_eq_true_eq] at h
  rcases h with ((((h | h) | h) | h) | h) <;> subst h <;> decide

/-- A special character's entity starts with an ampersand. -/
theorem escapeChar_special_mem_amp (c : Char) (h : isSpecialChar c = true) :
    '&' ∈ (escapeChar c).data := by
  simp only [isSpecialChar, Bool.or_eq_true, decide_eq_true_eq] at h
  rcases h with ((((h | h) | h) | h) | h) <;> subst h <;> decide

theorem flatMap_escape_length_ge (cs : List Char) :
    cs.length ≤ (cs.flatMap (fun c => (escapeChar c).data)).length := by
  induction cs with
  | nil => simp
  | cons c cs ih =>
    rw [List.flatMap_cons, List.length_append, List.length_cons]
    have := escapeChar_length_pos c
    omega

theorem flatMap_escape_length_gt (cs : List Char)
    (h : cs.any isSpecialChar = true) :
    cs.length < (cs.flatMap (fun c => (escapeChar c).data)).length := by
  induction cs with
  | nil => simp at h
  | cons c cs ih =>
    rw [List.flatMap_cons, List.length_append, List.length_cons]
    simp only [List.any_cons, Bool.or_eq_true] at h
    rcases h with h | h
    · have h2 := escapeChar_length_special c h
      have h3 := flatMap_escape_length_ge cs
      omega
    · have h2 := escapeChar_length_pos c
      have h3 := ih h
      omega

theorem htmlEscape_has_amp (s : String) (h : hasSpecialStr s = true) :
    '&' ∈ (htmlEscape s).data := by
  unfold hasSpecialStr at h
  rw [List.any_eq_true] at h
  obtain ⟨c, hc, hspec⟩ := h
  unfold htmlEscape
  show '&' ∈ s.data.flatMap (fun c => (escapeChar c).data)
  rw [List.mem_flatMap]
  exact ⟨c, hc, escapeChar_special_mem_amp c (by simpa using hspec)⟩

theorem hasSpecialStr_of_amp (s : String) (h : '&' ∈ s.data) :
    hasSpecialStr s = true := by
  unfold hasSpecialStr
  rw [List.any_eq_true]
  exact ⟨'&', h, by decide⟩

/-- Escaping a string containing a special character strictly grows it. -/
theorem htmlEscape_length_gt (s : String) (h : hasSpecialStr s = true) :
    s.data.length < (htmlEscape s).data.length := by
  unfold htmlEscape
  exact flatMap_escape_length_gt s.data h

/-- C8: for every plain string `s` (not tagged Safe, no `__html__` hook),
`conditional_escape(s)` produces text identical to the always-escape
implementation `escape(s)`; if `s` contains none of the five HTML-special
characters the text is `s` unchanged; and on the string `<>&"'` the result
is `&lt;&gt;&amp;&quot;&#x27;`. -/
theorem conditional_escape_text_eq_escape (s : String) :
    pyStr (conditionalEscape (.str s)) = pyStr (escapePy (.str s)) ∧
    (hasSpecialStr s = false → pyStr (conditionalEscape (.str s)) = s) ∧
    pyStr (conditionalEscape (.str "<>&\"'")) = "&lt;&gt;&amp;&quot;&#x27;" := by
  refine ⟨?_, ?_, ?_⟩
  · show pyStr (.str (fastEscapeStr s)) = pyStr (.safeStr (htmlEscape (pyStr (.str s))))
    show fastEscapeStr s = htmlEscape s
    unfold fastEscapeStr
    split
    · rfl
    · next h => exact (htmlEscape_no_special s (by simpa using h)).symm
  · intro h
    show fastEscapeStr s = s
    unfold fastEscapeStr
    rw [h]
    simp
  · decide

/-- Closed instance of `conditional_escape_text_eq_escape` at the concrete
input `"a<b"`. -/
theorem conditional_escape_text_eq_escape_witness :
    pyStr (conditionalEscape (.str "a<b")) = pyStr (escapePy (.str "a<b")) :=
  (conditional_escape_text_eq_escape "a<b").1

/-- C10: for every string `s` that is not tagged Safe and contains at least
one HTML-special character, `conditional_escape(s)` returns a plain `str`
not tagged as Safe Text (while `escape` always tags its result Safe), so a
second application escapes the ampersands introduced by the first and the
result differs. -/
theorem conditional_escape_unsafe_result_double_escapes (s : String)
    (h : hasSpecialStr s = true) :
    conditionalEscape (.str s) = .str (htmlEscape s) ∧
    isSafePy (conditionalEscape (.str s)) = false ∧
    isSafePy (escapePy (.str s)) = true ∧
    conditionalEscape (conditionalEscape (.str s)) ≠ conditionalEscape (.str s) := by
  have h1 : conditionalEscape (.str s) = .str (htmlEscape s) := by
    show PyVal.str (fastEscapeStr s) = PyVal.str (htmlEscape s)
    unfold fastEscapeStr
    rw [if_pos h]
  have hamp : hasSpecialStr (htmlEscape s) = true :=
    hasSpecialStr_of_amp _ (htmlEscape_has_amp s h)
  refine ⟨h1, by rw [h1]; rfl, rfl, ?_⟩
  rw [h1]
  intro heq
  have h2 : conditionalEscape (PyVal.str (htmlEscape s)) =
      PyVal.str (fastEscapeStr (htmlEscape s)) := rfl
  rw [h2] at heq
  unfold fastEscapeStr at heq
  rw [if_pos hamp] at heq
  rw [PyVal.str.injEq] at heq
  have hlen := htmlEscape_length_gt (htmlEscape s) hamp
  rw [heq] at hlen
  omega

/-- Closed instance of `conditional_escape_unsafe_result_double_escapes`
at the concrete input `"<b>"` (first escape gives `&lt;b&gt;`, second one
gives `&amp;lt;b&amp;gt;`). -/
theorem conditional_escape_unsafe_result_double_escapes_witness :
    conditionalEscape (conditionalEscape (.str "<b>")) ≠
      conditionalEscape (.str "<b>") :=
  (conditional_escape_unsafe_result_double_escapes "<b>" (by decide)).2.2.2

/-! ## defaulttags.py: CForloopContext

C-level forloop struct: stores only `(i, length)` (C `Py_ssize_t`, hence
`Int`) and computes the counters on demand in `__getitem__`. -/

/-- Association-list lookup used to model Python dict access
(first binding wins, as in a dict with distinct keys). -/
def alistLookup (es : List (String × PyVal)) (k : String) : Option PyVal :=
  match es.find? (fun kv => kv.1 == k) with
  | Option.none => Option.none
  | some kv => some kv.2

/-- `CForloopContext`: `_i`, `_length`, `_parentloop`, optional `_extra`
dict created on first `__setitem__`. -/
structure CForloopContext where
  i : Int
  length : Int
  parentloop : PyVal
  extra : Option (List (String × PyVal))

/-- `CForloopContext.__getitem__`, translated branch for branch; a key not
found in `_extra` (or with `_extra` still `None`) raises `KeyError`. -/
def CForloopContext.getitem (c : CForloopContext) (key : String) :
    Except PyErr PyVal :=
  if key == "counter0" then .ok (.int c.i)
  else if key == "counter" then .ok (.int (c.i + 1))
  else if key == "revcounter" then .ok (.int (c.length - c.i))
  else if key == "revcounter0" then .ok (.int (c.length - c.i - 1))
  else if key == "first" then .ok (.bool (c.i == 0))
  else if key == "last" then .ok (.bool (c.i == c.length - 1))
  else if key == "length" then .ok (.int c.length)
  else if key == "parentloop" then .ok c.parentloop
  else match c.extra with
    | some es =>
        match alistLookup es key with
        | some v => .ok v
        | Option.none => .error .keyError
    | Option.none => .error .keyError

/-- C5: for a loop frame over `n ≥ 1` elements at stored index `i`
(`0 ≤ i < n`): `counter = i+1`, `counter0 = i`, `revcounter = n-i`,
`revcounter0 = n-i-1`, `length = n`; at `i = 0`: `first = true`,
`counter = 1`, `counter0 = 0`, `last = (n == 1)`; at `i = n-1`:
`last = true`, `revcounter = 1`, `revcounter0 = 0`. -/
theorem cforloop_frame_invariants (i n : Int) (p : PyVal)
    (ex : Option (List (String × PyVal)))
    (hn : 1 ≤ n) (h0 : 0 ≤ i) (hi : i < n) :
    let c : CForloopContext := ⟨i, n, p, ex⟩
    c.getitem "counter" = .ok (.int (i + 1)) ∧
    c.getitem "counter0" = .ok (.int i) ∧
    c.getitem "revcounter" = .ok (.int (n - i)) ∧
    c.getitem "revcounter0" = .ok (.int (n - i - 1)) ∧
    c.getitem "length" = .ok (.int n) ∧
    (i = 0 →
      c.getitem "first" = .ok (.bool true) ∧
      c.getitem "counter" = .ok (.int 1) ∧
      c.getitem "counter0" = .ok (.int 0) ∧
      c.getitem "last" = .ok (.bool (n == 1))) ∧
    (i = n - 1 →
      c.getitem "last" = .ok (.bool true) ∧
      c.getitem "revcounter" = .ok (.int 1) ∧
      c.getitem "revcounter0" = .ok (.int 0)) := by
  refine ⟨rfl, rfl, rfl, rfl, rfl, ?_, ?_⟩
  · intro h
    subst h
    refine ⟨?_, rfl, rfl, ?_⟩
    · show Except.ok (PyVal.bool ((0 : Int) == 0)) = Except.ok (PyVal.bool true)
      rfl
    · show Except.ok (PyVal.bool ((0 : Int) == n - 1)) =
        Except.ok (PyVal.bool (n == 1))
      congr 2
      have : ((0 : Int) = n - 1) ↔ (n = 1) := by omega
      by_cases hc : n = 1
      · simp [hc]
      · have hc2 : (0 : Int) ≠ n - 1 := by omega
        simp [hc, hc2]
  · intro h
    subst h
    refine ⟨?_, ?_, ?_⟩
    · show Except.ok (PyVal.bool ((n - 1 : Int) == n - 1)) =
        Except.ok (PyVal.bool true)
      simp
    · show Except.ok (PyVal.int (n - (n - 1))) = Except.ok (PyVal.int 1)
      congr 2
      omega
    · show Except.ok (PyVal.int (n - (n - 1) - 1)) = Except.ok (PyVal.int 0)
      congr 2
      omega

/-- Closed instance of `cforloop_frame_invariants` at `n = 1`, `i = 0`
(a one-element loop frame, exercising both the first- and last-iteration
branches). -/
theorem cforloop_frame_invariants_witness :
    (1 : Int) ≤ 1 ∧
    (CForloopContext.getitem ⟨0, 1, .none, Option.none⟩ "first" =
      .ok (.bool true)) := by
  refine ⟨by decide, ?_⟩
  exact ((cforloop_frame_invariants 0 1 .none Option.none (by decide)
    (by decide) (by decide)).2.2.2.2.2.1 rfl).1

/-! ## Python operator semantics used by smartif.py

Comparisons on the model's value universe: numbers (`bool` counts as its
numeric value, as in Python) compare numerically, strings compare
lexicographically, everything else raises `TypeError` for an ordering
comparison.  Ordering of containers is modelled as a type error (no claim
depends on it).  `==`/`!=` never raise on the model universe. -/

/-- Numeric view of a value (`bool` is an `int` subclass in Python). -/
def asNumber : PyVal → Option Int
  | .bool b => some (if b then 1 else 0)
  | .int n => some n
  | _ => Option.none

/-- String view of a value (`SafeString` is a `str` subclass). -/
def asString : PyVal → Option String
  | .str s => some s
  | .safeStr s => some s
  | _ => Option.none

/-- Python `==`, bounded by fuel through containers. -/
def pyEqF : Nat → PyVal → PyVal → Bool
  | 0, _, _ => false
  | fuel + 1, a, b =>
    match asNumber a, asNumber b with
    | some x, some y => x == y
    | _, _ =>
      match asString a, asString b with
      | some s, some t => s == t
      | _, _ =>
        match a, b with
        | .none, .none => true
        | .list xs, .list ys =>
            xs.length == ys.length &&
            (xs.zip ys).all (fun p => pyEqF fuel p.1 p.2)
        | .dict es, .dict fs =>
            es.length == fs.length &&
            es.all (fun kv =>
              match alistLookup fs kv.1 with
              | some w => pyEqF fuel kv.2 w
              | Option.none => false)
        | _, _ => false

/-- Python `==` (object identity for `obj`/`callableV` is modelled as
never-equal, since distinct occurrences are distinct objects). -/
def pyEq (a b : PyVal) : Bool := pyEqF pyFuel a b

/-- Python `<`: numeric or string comparison; anything else raises
`TypeError`. -/
def pyLt : PyVal → PyVal → Except PyErr Bool
  | a, b =>
    match asNumber a, asNumber b with
    | some x, some y => .ok (decide (x < y))
    | _, _ =>
      match asString a, asString b with
      | some s, some t => .ok (decide (s < t))
      | _, _ => .error .typeError

/-- Python `<=`. -/
def pyLe : PyVal → PyVal → Except PyErr Bool
  | a, b =>
    match asNumber a, asNumber b with
    | some x, some y => .ok (decide (x ≤ y))
    | _, _ =>
      match asString a, asString b with
      | some s, some t => .ok (decide (s ≤ t))
      | _, _ => .error .typeError

/-- Python `in`: membership in a list (by `==`), substring test for
strings, key membership for dicts; anything else raises `TypeError`. -/
def pyIn : PyVal → PyVal → Except PyErr Bool
  | a, .list xs => .ok (xs.any (pyEq a))
  | a, .str s =>
      match asString a with
      | some t => .ok (decide (List.IsInfix t.data s.data))
      | Option.none => .error .typeError
  | a, .safeStr s =>
      match asString a with
      | some t => .ok (decide (List.IsInfix t.data s.data))
      | Option.none => .error .typeError
  | a, .dict es =>
      match asString a with
      | some t => .ok (es.any (fun kv => kv.1 == t))
      | Option.none => .ok (es.any (fun _ => false))
  | _, _ => .error .typeError

/-- Python `is` (object identity), modelled on the singletons the
interpreter guarantees to intern: `None`, `True`, `False`; distinct
occurrences of any other value are distinct objects, hence not identical. -/
def pyIs : PyVal → PyVal → Bool
  | .none, .none => true
  | .bool a, .bool b => a == b
  | _, _ => false

/-! ## smartif.py: the unified Operator evaluator

`Operator.eval` (smartif.py lines 107-141) dispatches on the integer
`op_code` inside one `try`: any exception raised while evaluating an
operand or applying the operation is caught and turned into `False`.
Prefix operators leave `second = None`; a binary opcode reaching a `None`
child calls `None.eval`, raising `AttributeError` (caught like any other).

Expression nodes are modelled by `SIExpr`:
* `lit v` — a `Literal`/resolved variable whose `eval` returns `v`;
* `raising` — an operand whose `eval` raises (e.g. a `TemplateLiteral`
  whose resolution raises);
* `noneTok` — the `None` stored in an unused `second` slot;
* `opNode code first second` — an `Operator` node. -/

def OP_OR : Nat := 0
def OP_AND : Nat := 1
def OP_NOT : Nat := 2
def OP_IN : Nat := 3
def OP_NOT_IN : Nat := 4
def OP_IS : Nat := 5
def OP_IS_NOT : Nat := 6
def OP_EQ : Nat := 7
def OP_NE : Nat := 8
def OP_GT : Nat := 9
def OP_GE : Nat := 10
def OP_LT : Nat := 11
def OP_LE : Nat := 12

inductive SIExpr where
  | lit (v : PyVal)
  | raising
  | noneTok
  | opNode (code : Nat) (first second : SIExpr)

/-- The body of the `try` in `Operator.eval`, branch for branch; `fv` and
`sv` are the evaluation outcomes of `self.first.eval(context)` and
`self.second.eval(context)` (an `error` operand outcome propagates into
the body's outcome exactly where the source would evaluate that operand,
and the final `return False` of the source is the last case). -/
def operatorEvalBody (code : Nat) (fv sv : Except PyErr PyVal) :
    Except PyErr PyVal :=
  if code == OP_OR then do
    let left ← fv
    if truthy left then pure left else sv
  else if code == OP_AND then do
    let left ← fv
    if truthy left then sv else pure left
  else if code == OP_NOT then do
    let v ← fv
    pure (.bool (!truthy v))
  else if code == OP_IN then do
    let a ← fv
    let b ← sv
    let r ← pyIn a b
    pure (.bool r)
  else if code == OP_NOT_IN then do
    let a ← fv
    let b ← sv
    let r ← pyIn a b
    pure (.bool (!r))
  else if code == OP_IS then do
    let a ← fv
    let b ← sv
    pure (.bool (pyIs a b))
  else if code == OP_IS_NOT then do
    let a ← fv
    let b ← sv
    pure (.bool (!pyIs a b))
  else if code == OP_EQ then do
    let a ← fv
    let b ← sv
    pure (.bool (pyEq a b))
  else if code == OP_NE then do
    let a ← fv
    let b ← sv
    pure (.bool (!pyEq a b))
  else if code == OP_GT then do
    let a ← fv
    let b ← sv
    let r ← pyLt b a
    pure (.bool r)
  else if code == OP_GE then do
    let a ← fv
    let b ← sv
    let r ← pyLe b a
    pure (.bool r)
  else if code == OP_LT then do
    let a ← fv
    let b ← sv
    let r ← pyLt a b
    pure (.bool r)
  else if code == OP_LE then do
    let a ← fv
    let b ← sv
    let r ← pyLe a b
    pure (.bool r)
  else
    pure (.bool false)

/-- `Operator.eval`: the `try` body with `except Exception: return False`. -/
def operatorEvalCatch (code : Nat) (fv sv : Except PyErr PyVal) : PyVal :=
  match operatorEvalBody code fv sv with
  | .ok v => v
  | .error _ => .bool false

theorem exceptOkBind {α β γ : Type} (x : α) (g : α → Except γ β) :
    (Except.ok x >>= g) = g x := rfl

/-- `eval` over expression nodes: a `Literal` returns its value, a raising
operand raises, the `None` slot raises `AttributeError` on `.eval`, and an
`Operator` node never raises (its `try` swallows everything). -/
def SIExpr.evalE : SIExpr → Except PyErr PyVal
  | .lit v => .ok v
  | .raising => .error .valueError
  | .noneTok => .error .attributeError
  | .opNode code f s => .ok (operatorEvalCatch code f.evalE s.evalE)

/-- C2: `and` and `or` short-circuit.  If `X` evaluates to a falsy value
`x`, then `X and Y` evaluates to `x` for every right-hand side `Y`
whatsoever (in particular for a `Y` whose evaluation would raise — the
result is independent of `Y`, which is the extensional reading of "`Y` is
never evaluated"); dually, if `x` is truthy, `X or Y` evaluates to `x`
for every `Y`. -/
theorem and_or_short_circuit (f : SIExpr) (x : PyVal)
    (hf : f.evalE = .ok x) :
    (truthy x = false →
      ∀ s : SIExpr, (SIExpr.opNode OP_AND f s).evalE = .ok x) ∧
    (truthy x = true →
      ∀ s : SIExpr, (SIExpr.opNode OP_OR f s).evalE = .ok x) := by
  constructor
  · intro hx s
    show Except.ok (operatorEvalCatch OP_AND f.evalE s.evalE) = Except.ok x
    rw [hf]
    unfold operatorEvalCatch operatorEvalBody
    simp [OP_AND, OP_OR, hx, exceptOkBind, pure, Except.pure]
  · intro hx s
    show Except.ok (operatorEvalCatch OP_OR f.evalE s.evalE) = Except.ok x
    rw [hf]
    unfold operatorEvalCatch operatorEvalBody
    simp [OP_OR, hx, exceptOkBind, pure, Except.pure]

/-- Closed instance of `and_or_short_circuit`: with `a = False` and a
right-hand operand whose evaluation raises, `a and <raising-expr>`
evaluates to `False` (falsy) without raising. -/
theorem and_or_short_circuit_witness :
    (SIExpr.opNode OP_AND (.lit (.bool false)) .raising).evalE =
      .ok (.bool false) :=
  (and_or_short_circuit (.lit (.bool false)) (.bool false) rfl).1 rfl .raising

/-- C3: for every operator node, `Operator.eval` never raises: evaluation
always yields `ok` of some value, and whenever the `try` body (operand
evaluation or the operation itself) raises any exception, the returned
value is `False`. -/
theorem operator_eval_never_raises (code : Nat) (f s : SIExpr) :
    ∃ v : PyVal, (SIExpr.opNode code f s).evalE = .ok v ∧
      (∀ e : PyErr, operatorEvalBody code f.evalE s.evalE = .error e →
        v = .bool false) := by
  refine ⟨operatorEvalCatch code f.evalE s.evalE, rfl, ?_⟩
  intro e he
  unfold operatorEvalCatch
  rw [he]

/-- Closed instance of `operator_eval_never_raises`: comparing an `int`
with a `str` raises `TypeError` inside the body, and the node evaluates
to `False`. -/
theorem operator_eval_never_raises_witness :
    (SIExpr.opNode OP_GT (.lit (.int 1)) (.lit (.str "a"))).evalE =
      .ok (.bool false) := by
  obtain ⟨v, hv, hfalse⟩ :=
    operator_eval_never_raises OP_GT (.lit (.int 1)) (.lit (.str "a"))
  rw [hv, hfalse .typeError rfl]

/-! ## defaulttags.py: WidthRatioNode

Python's `float`/`int` conversions and the ratio arithmetic are modelled
over `ℚ` (machine floats are outside the model); the conversion grammar
covers plain decimal literals (no exponents/underscores/whitespace), and
`float(int)` overflows at the IEEE double range boundary, modelled as
`2^1024`.  The claim concerns only error routing, which this preserves. -/

/-- Digits to a natural number. -/
def digitsToNat (cs : List Char) : Nat :=
  cs.foldl (fun a c => a * 10 + (c.toNat - 48)) 0

/-- Unsigned decimal literal (`"12"`, `"1.5"`, `"1."`, `".5"`) to `ℚ`. -/
def parseUnsignedQ (cs : List Char) : Option ℚ :=
  match cs.splitOn '.' with
  | [ip] =>
      if !ip.isEmpty && ip.all Char.isDigit then some (digitsToNat ip : ℚ)
      else Option.none
  | [ip, fp] =>
      if !(ip ++ fp).isEmpty && ip.all Char.isDigit && fp.all Char.isDigit then
        some ((digitsToNat ip : ℚ) + (digitsToNat fp : ℚ) / (10 ^ fp.length : ℚ))
      else Option.none
  | _ => Option.none

/-- Python `float(str)` grammar (modelled without exponents). -/
def parseDecQ (s : String) : Option ℚ :=
  match s.data with
  | '+' :: rest => parseUnsignedQ rest
  | '-' :: rest => (parseUnsignedQ rest).map (fun q => -q)
  | cs => parseUnsignedQ cs

/-- Python `int(str)` grammar. -/
def parseIntS (s : String) : Option Int :=
  match s.data with
  | '+' :: rest =>
      if !rest.isEmpty && rest.all Char.isDigit then some (digitsToNat rest : Int)
      else Option.none
  | '-' :: rest =>
      if !rest.isEmpty && rest.all Char.isDigit then
        some (-(digitsToNat rest : Int))
      else Option.none
  | cs =>
      if !cs.isEmpty && cs.all Char.isDigit then some (digitsToNat cs : Int)
      else Option.none

/-- Python `float(v)`: numbers convert, numeric strings parse
(`ValueError` otherwise), huge ints overflow, and any other type raises
`TypeError`. -/
def pyFloat : PyVal → Except PyErr ℚ
  | .int n =>
      if (2 : Int) ^ 1024 ≤ n ∨ n ≤ -((2 : Int) ^ 1024) then
        .error .overflowError
      else .ok (n : ℚ)
  | .bool b => .ok (if b then 1 else 0)
  | .str s =>
      match parseDecQ s with
      | some q => .ok q
      | Option.none => .error .valueError
  | .safeStr s =>
      match parseDecQ s with
      | some q => .ok q
      | Option.none => .error .valueError
  | _ => .error .typeError

/-- Python `int(v)` for the conversion in `WidthRatioNode.render`. -/
def pyInt : PyVal → Except PyErr Int
  | .int n => .ok n
  | .bool b => .ok (if b then 1 else 0)
  | .str s =>
      match parseIntS s with
      | some n => .ok n
      | Option.none => .error .valueError
  | .safeStr s =>
      match parseIntS s with
      | some n => .ok n
      | Option.none => .error .valueError
  | _ => .error .typeError

/-- Python `round(q)`: round half to even. -/
def pyRound (q : ℚ) : Int :=
  let f := ⌊q⌋
  let r := q - (f : ℚ)
  if r < 1 / 2 then f
  else if 1 / 2 < r then f + 1
  else if f % 2 = 0 then f else f + 1

/-- The second `try` body of `WidthRatioNode.render`:
`value = float(value); max_value = float(max_value);
ratio = (value / max_value) * max_width; result = str(round(ratio))`,
with the division raising `ZeroDivisionError` when the maximum is zero. -/
def widthRatioTryBody (value maxv : PyVal) (maxw : Int) :
    Except PyErr String := do
  let q1 ← pyFloat value
  let q2 ← pyFloat maxv
  if q2 == 0 then Except.error .zeroDivisionError
  else Except.ok (toString (pyRound (q1 / q2 * (maxw : ℚ))))

/-- The second `try` of `WidthRatioNode.render` with its handlers:
`except ZeroDivisionError: result = "0"` and
`except (ValueError, TypeError, OverflowError): result = ""`;
any other exception kind would propagate. -/
def widthRatioResult (value maxv : PyVal) (maxw : Int) :
    Except PyErr String :=
  match widthRatioTryBody value maxv maxw with
  | .ok r => .ok r
  | .error .zeroDivisionError => .ok "0"
  | .error .valueError => .ok ""
  | .error .typeError => .ok ""
  | .error .overflowError => .ok ""
  | .error e => .error e

/-- `WidthRatioNode.render`.  The three arguments are the resolution
outcomes of `val_expr`, `max_expr` and `max_width` (`none` models
`VariableDoesNotExist`, whose handler returns `""` at once); the result
pairs the returned string with the context writes performed
(`context[self.asvar] = result` when an as-variable was declared). -/
def widthRatioRender (valR maxR mwR : Option PyVal) (asvar : Option String) :
    Except PyErr (String × List (String × PyVal)) :=
  match valR, maxR, mwR with
  | some value, some maxv, some mwv =>
      match pyInt mwv with
      | .error _ => .error .templateSyntaxError
      | .ok maxw =>
          match widthRatioResult value maxv maxw with
          | .error e => .error e
          | .ok result =>
              match asvar with
              | some nm => .ok ("", [(nm, .str result)])
              | Option.none => .ok (result, [])
  | _, _, _ => .ok ("", [])

/-- `float()` only raises `ValueError`, `TypeError` or `OverflowError`. -/
theorem pyFloat_error_kinds (v : PyVal) (e : PyErr)
    (h : pyFloat v = .error e) :
    e = .valueError ∨ e = .typeError ∨ e = .overflowError := by
  cases v <;> simp [pyFloat] at h <;> try simp [h]
  case int n =>
    split at h
    · cases h
      right; right; rfl
    · cases h
  case str s =>
    cases hp : parseDecQ s <;> rw [hp] at h <;> cases h
    left; rfl
  case safeStr s =>
    cases hp : parseDecQ s <;> rw [hp] at h <;> cases h
    left; rfl

theorem exceptErrBind {α β γ : Type} (e : γ) (g : α → Except γ β) :
    (Except.error e >>= g) = Except.error e := rfl

/-- The widthratio `try` with its three handlers never lets an exception
out: every `float` failure kind and the zero division are caught. -/
theorem widthRatioResult_ok (value maxv : PyVal) (maxw : Int) :
    ∃ r, widthRatioResult value maxv maxw = .ok r := by
  unfold widthRatioResult
  cases hb : widthRatioTryBody value maxv maxw with
  | ok r => exact ⟨r, rfl⟩
  | error e =>
    have he : e = .zeroDivisionError ∨ e = .valueError ∨ e = .typeError ∨
        e = .overflowError := by
      unfold widthRatioTryBody at hb
      cases h1 : pyFloat value with
      | error e1 =>
        rw [h1, exceptErrBind] at hb
        injection hb with hb2
        subst hb2
        rcases pyFloat_error_kinds value _ h1 with h | h | h <;> simp [h]
      | ok q1 =>
        rw [h1, exceptOkBind] at hb
        cases h2 : pyFloat maxv with
        | error e2 =>
          rw [h2, exceptErrBind] at hb
          injection hb with hb2
          subst hb2
          rcases pyFloat_error_kinds maxv _ h2 with h | h | h <;> simp [h]
        | ok q2 =>
          rw [h2, exceptOkBind] at hb
          split at hb
          · cases hb
            left; rfl
          · cases hb
    rcases he with h | h | h | h <;> subst h <;> exact ⟨_, rfl⟩

/-- With `int(max_width)` succeeding, the render reduces to the caught
ratio computation followed by the as-variable dispatch. -/
theorem widthRatioRender_ok_mw (value maxv mwv : PyVal) (w : Int)
    (a : Option String) (hmw : pyInt mwv = .ok w) :
    widthRatioRender (some value) (some maxv) (some mwv) a =
      match widthRatioResult value maxv w with
      | .error e => .error e
      | .ok result =>
          match a with
          | some nm => .ok ("", [(nm, .str result)])
          | Option.none => .ok (result, []) := by
  simp only [widthRatioRender]
  rw [hmw]

/-- C9 (amended): for a widthratio node whose three arguments resolve and
whose max-width converts to an integer: render never propagates an
exception; when the value converts and the maximum converts to zero the
result string is `"0"`; when the value or the maximum fails `float`
conversion (`ValueError`/`TypeError`/`OverflowError`) the result string
is `""`.  Without an as-variable the result string is returned; with
`as var` it is stored in the context and `""` is returned. -/
theorem widthratio_error_routing (value maxv mwv : PyVal) (w : Int)
    (a : Option String) (hmw : pyInt mwv = .ok w) :
    (∃ s ctx, widthRatioRender (some value) (some maxv) (some mwv) a =
      .ok (s, ctx)) ∧
    (∀ q1, pyFloat value = .ok q1 → pyFloat maxv = .ok 0 →
      widthRatioRender (some value) (some maxv) (some mwv) Option.none =
        .ok ("0", []) ∧
      (∀ nm, widthRatioRender (some value) (some maxv) (some mwv) (some nm) =
        .ok ("", [(nm, .str "0")]))) ∧
    (∀ e, pyFloat value = .error e →
      widthRatioRender (some value) (some maxv) (some mwv) Option.none =
        .ok ("", [])) ∧
    (∀ q1 e, pyFloat value = .ok q1 → pyFloat maxv = .error e →
      widthRatioRender (some value) (some maxv) (some mwv) Option.none =
        .ok ("", [])) := by
  have hzero : ∀ q1, pyFloat value = .ok q1 → pyFloat maxv = .ok 0 →
      widthRatioResult value maxv w = .ok "0" := by
    intro q1 h1 h2
    unfold widthRatioResult widthRatioTryBody
    rw [h1, exceptOkBind, h2, exceptOkBind]
    rfl
  have herr1 : ∀ e, pyFloat value = .error e →
      widthRatioResult value maxv w = .ok "" := by
    intro e h1
    unfold widthRatioResult widthRatioTryBody
    rw [h1, exceptErrBind]
    rcases pyFloat_error_kinds value e h1 with h | h | h <;> subst h <;> rfl
  have herr2 : ∀ q1 e, pyFloat value = .ok q1 → pyFloat maxv = .error e →
      widthRatioResult value maxv w = .ok "" := by
    intro q1 e h1 h2
    unfold widthRatioResult widthRatioTryBody
    rw [h1, exceptOkBind, h2, exceptErrBind]
    rcases pyFloat_error_kinds maxv e h2 with h | h | h <;> subst h <;> rfl
  refine ⟨?_, ?_, ?_, ?_⟩
  · obtain ⟨r, hr⟩ := widthRatioResult_ok value maxv w
    rw [widthRatioRender_ok_mw value maxv mwv w a hmw, hr]
    cases a with
    | some nm => exact ⟨"", [(nm, .str r)], rfl⟩
    | none => exact ⟨r, [], rfl⟩
  · intro q1 h1 h2
    constructor
    · rw [widthRatioRender_ok_mw value maxv mwv w Option.none hmw,
        hzero q1 h1 h2]
    · intro nm
      rw [widthRatioRender_ok_mw value maxv mwv w (some nm) hmw,
        hzero q1 h1 h2]
  · intro e h1
    rw [widthRatioRender_ok_mw value maxv mwv w Option.none hmw, herr1 e h1]
  · intro q1 e h1 h2
    rw [widthRatioRender_ok_mw value maxv mwv w Option.none hmw,
      herr2 q1 e h1 h2]

/-- `float(n)` of an `int` within the IEEE double range converts exactly. -/
theorem pyFloat_small_int (n : Int) (h1 : -(2 ^ 1024) < n)
    (h2 : n < 2 ^ 1024) : pyFloat (.int n) = .ok (n : ℚ) := by
  simp only [pyFloat]
  rw [if_neg]
  intro h
  rcases h with h | h
  · exact absurd h (not_le.mpr h2)
  · exact absurd h (not_le.mpr h1)

/-- C9 counterexample: a widthratio node with an as-variable (`{% widthratio
50 0 100 as ratio %}`) whose maximum is zero stores `"0"` in the context
but *returns* the empty string, refuting "render returns the string `\"0\"`"
as stated for every node. -/
theorem widthratio_asvar_returns_empty :
    widthRatioRender (some (.int 50)) (some (.int 0)) (some (.int 100))
      (some "ratio") = .ok ("", [("ratio", .str "0")]) := by
  have hbig : (64 : Int) ≤ 2 ^ 1024 := by
    calc (64 : Int) = 2 ^ 6 := by norm_num
    _ ≤ 2 ^ 1024 := pow_le_pow_right (by norm_num) (by norm_num)
  have h50 : pyFloat (.int 50) = .ok ((50 : Int) : ℚ) :=
    pyFloat_small_int 50 (by linarith) (by linarith)
  have h0 : pyFloat (.int 0) = .ok 0 := by
    rw [pyFloat_small_int 0 (by linarith) (by linarith)]
    norm_num
  exact ((widthratio_error_routing (.int 50) (.int 0) (.int 100) 100
    (some "ratio") rfl).2.1 ((50 : Int) : ℚ) h50 h0).2 "ratio"

/-- Closed instance of `widthratio_error_routing`: a non-numeric value
(`"abc"`) degrades to the empty string. -/
theorem widthratio_error_routing_witness :
    pyInt (.int 100) = .ok 100 ∧
    widthRatioRender (some (.str "abc")) (some (.int 0)) (some (.int 100))
      Option.none = .ok ("", []) :=
  ⟨rfl, (widthratio_error_routing (.str "abc") (.int 0) (.int 100) 100
    Option.none rfl).2.2.1 .valueError rfl⟩

/-! ## formats.py: localize (restricted to the model's value universe)

Default settings are modelled (`USE_THOUSAND_SEPARATOR = False`, so ints
take the early exit `str(value)`); date/time/decimal inputs are outside
the value universe. -/

/-- `localize` from `formats.py`: strings are returned unchanged (so a
`SafeString` keeps its tag), `bool` and `int` become their `str` form,
any other value is returned unchanged. -/
def localizePy : PyVal → PyVal
  | .str s => .str s
  | .safeStr s => .safeStr s
  | .bool b => .str (if b then "True" else "False")
  | .int n => .str (toString n)
  | v => v

/-- Modelled from the spec: `render_value_in_context` lives in the
repository's `base.py`, which is not under `src/`.  Per §4.2/§4.6 the
emitted value is localized to text if numeric, then — with autoescape on —
conditionally escaped (Safe Text passes through), else stringified. -/
def render_value_in_context (ae : Bool) (v : PyVal) : String :=
  let t := localizePy v
  if ae then
    let t2 := if isStrPy t then t else .str (pyStr t)
    pyStr (conditionalEscape t2)
  else pyStr t

/-! ## defaulttags.py: CycleNode -/

/-- A cycle value expression: a compile-time literal string (a
`FilterExpression` with `is_var = False`, no filters and a `str` value —
the shape `CycleNode.__init__` pre-resolves), or a general expression
together with its resolution outcome (standing in for
`resolve(context)`). -/
inductive CycVal where
  | litStr (s : String)
  | expr (resolvesTo : PyVal)

def CycVal.resolve : CycVal → PyVal
  | .litStr s => .str s
  | .expr v => v

/-- `CycleNode`: declared value expressions, optional binding name,
silent flag. -/
structure CycleNodeM where
  cyclevars : List CycVal
  variable_name : Option String
  silent : Bool

/-- `_preresolved` as computed by `CycleNode.__init__`: present iff there
is no variable name, the node is not silent, and every declared value is
a literal string. -/
def CycleNodeM.preresolved (nd : CycleNodeM) : Option (List String) :=
  if nd.variable_name.isNone && !nd.silent then
    let pre := nd.cyclevars.filterMap (fun cv =>
      match cv with
      | .litStr s => some s
      | .expr _ => Option.none)
    if pre.length = nd.cyclevars.length then some pre else Option.none
  else Option.none

/-- `CycleNode.render`.  The node's `render_context` entry is modelled as
a counter (`none` when absent): the pre-reduced index on the fast path,
the `itertools.cycle` iterator position on the general path.  Returns
(output text, new counter, upward binding performed).  `escape(value)` is
a `SafeString` whose text is `htmlEscape value`; indexing is total via
`getD` (the counter invariant keeps it in range). -/
def CycleNodeM.render (nd : CycleNodeM) (ae : Bool) (st : Option Nat) :
    String × Nat × Option (String × PyVal) :=
  match nd.preresolved with
  | some pre =>
      let idx := st.getD 0
      let value := pre.getD idx ""
      let out := if ae && pre.any hasSpecialStr then htmlEscape value
        else value
      (out, (idx + 1) % nd.cyclevars.length, Option.none)
  | Option.none =>
      let p := st.getD 0
      let value :=
        (nd.cyclevars.getD (p % nd.cyclevars.length) (.litStr "")).resolve
      ((if nd.silent then "" else render_value_in_context ae value),
        p + 1,
        nd.variable_name.map (fun nm => (nm, value)))

/-- `CycleNode.reset`: the stored state returns to the start — index `0`
on the fast path, a fresh `itertools.cycle` (position `0`) otherwise. -/
def CycleNodeM.reset (_nd : CycleNodeM) : Nat := 0

/-- The text one render emits when the selected declared value is the one
at index `j`. -/
def CycleNodeM.emitAt (nd : CycleNodeM) (ae : Bool) (j : Nat) : String :=
  match nd.preresolved with
  | some pre =>
      if ae && pre.any hasSpecialStr then htmlEscape (pre.getD j "")
      else pre.getD j ""
  | Option.none =>
      if nd.silent then ""
      else render_value_in_context ae
        ((nd.cyclevars.getD j (.litStr "")).resolve)

/-- The counter stored after `m` renders from a fresh `render_context`. -/
def cycleStateAfter (nd : CycleNodeM) (m : Nat) : Nat :=
  match nd.preresolved with
  | some _ => m % nd.cyclevars.length
  | Option.none => m

/-- Outputs and final counter of `m` successive renders of one cycle node
within one render call (fresh `render_context`), oldest output first. -/
def cycleOutputs (nd : CycleNodeM) (ae : Bool) : Nat → List String × Option Nat
  | 0 => ([], Option.none)
  | m + 1 =>
      let prev := cycleOutputs nd ae m
      let step := nd.render ae prev.2
      (prev.1 ++ [step.1], some step.2.1)

theorem mod_succ_mod (m k : Nat) : ((m % k) + 1) % k = (m + 1) % k := by
  conv_lhs => rw [Nat.add_mod]
  conv_rhs => rw [Nat.add_mod]
  rw [Nat.mod_mod_of_dvd m (dvd_refl k)]

/-- One render step from the counter state reached after `m` renders:
it emits the value at index `m mod k` and stores the state for `m + 1`. -/
theorem cycle_render_step (nd : CycleNodeM) (ae : Bool) (m : Nat) :
    (nd.render ae
      (if m = 0 then Option.none else some (cycleStateAfter nd m))).1 =
        nd.emitAt ae (m % nd.cyclevars.length) ∧
    (nd.render ae
      (if m = 0 then Option.none else some (cycleStateAfter nd m))).2.1 =
        cycleStateAfter nd (m + 1) := by
  have hgd : (if m = 0 then (Option.none : Option Nat)
      else some (cycleStateAfter nd m)).getD 0 = cycleStateAfter nd m := by
    cases m with
    | zero =>
      simp only [if_pos rfl, Option.getD_none, cycleStateAfter]
      cases nd.preresolved <;> simp
    | succ m => simp
  cases hpre : nd.preresolved with
  | some pre =>
    have hst : cycleStateAfter nd m = m % nd.cyclevars.length := by
      simp [cycleStateAfter, hpre]
    rw [hst] at hgd
    constructor
    · simp only [CycleNodeM.render, hpre, hst, hgd, CycleNodeM.emitAt]
    · simp only [CycleNodeM.render, hpre, hst, hgd, cycleStateAfter]
      exact mod_succ_mod m _
  | none =>
    have hst : cycleStateAfter nd m = m := by simp [cycleStateAfter, hpre]
    rw [hst] at hgd
    constructor
    · simp only [CycleNodeM.render, hpre, hst, hgd, CycleNodeM.emitAt]
    · simp only [CycleNodeM.render, hpre, hst, hgd, cycleStateAfter]

/-- After `m` renders the outputs are exactly `emitAt (i % k)` for
`i = 0, …, m-1`, and the stored counter is the state for `m`. -/
theorem cycleOutputs_spec (nd : CycleNodeM) (ae : Bool) (m : Nat) :
    (cycleOutputs nd ae m).1 =
      (List.range m).map (fun i => nd.emitAt ae (i % nd.cyclevars.length)) ∧
    (cycleOutputs nd ae m).2 =
      (if m = 0 then Option.none else some (cycleStateAfter nd m)) := by
  induction m with
  | zero => exact ⟨rfl, rfl⟩
  | succ m ih =>
    obtain ⟨ho, hs⟩ := ih
    obtain ⟨hr1, hr2⟩ := cycle_render_step nd ae m
    constructor
    · show (cycleOutputs nd ae m).1 ++
        [(nd.render ae (cycleOutputs nd ae m).2).1] = _
      rw [ho, hs, hr1, List.range_succ, List.map_append]
      rfl
    · show some ((nd.render ae (cycleOutputs nd ae m).2).2.1) = _
      rw [hs, hr2]
      simp

/-- C4: for a cycle node with `k ≥ 1` declared values rendered `m` times
within one render call, the `i`-th render (0-based, `i < m`) emits the
resolution of `values[i mod k]`; and a render following `reset` emits
`values[0]`.  This covers the pre-resolved-literal fast path (integer
index in `render_context`) and the general path (`itertools.cycle`
position) uniformly, since `render` dispatches on `_preresolved`. -/
theorem cycle_modular_emission (nd : CycleNodeM) (ae : Bool) (m i : Nat)
    (hk : 1 ≤ nd.cyclevars.length) (hi : i < m) :
    (cycleOutputs nd ae m).1.get? i =
      some (nd.emitAt ae (i % nd.cyclevars.length)) ∧
    (nd.render ae (some (nd.reset))).1 = nd.emitAt ae 0 := by
  constructor
  · rw [(cycleOutputs_spec nd ae m).1]
    rw [List.get?_map, List.get?_range hi]
    rfl
  · have h := (cycle_render_step nd ae 0).1
    simpa [CycleNodeM.reset, cycleStateAfter] using h

/-- Closed instance of `cycle_modular_emission`: the literal cycle
`odd / even` rendered three times emits `values[0]` again on the third
render (index `2 mod 2 = 0`). -/
theorem cycle_modular_emission_witness :
    (cycleOutputs ⟨[CycVal.litStr "odd", CycVal.litStr "even"],
        Option.none, false⟩ false 3).1.get? 2 =
      some (CycleNodeM.emitAt
        ⟨[CycVal.litStr "odd", CycVal.litStr "even"], Option.none, false⟩
        false (2 % 2)) :=
  (cycle_modular_emission _ false 3 2 (by decide) (by decide)).1

/-! ## base.py / context.py stand-ins (spec-modelled)

`base.py` and `context.py` are imported by `defaulttags.py` but are not
under `src/`; the definitions in this section are modelled from the spec
(§3 "Variable Path" / "Filter Expression", §4.1, §4.2, §6). -/

/-- Modelled from the spec: the Context scope stack of `context.py`
(not under `src/`): an ordered list of mappings, innermost last, plus the
scoped autoescape flag (§3, §4.1). -/
structure ContextM where
  dicts : List (List (String × PyVal))
  autoescape : Bool

/-- Modelled from the spec: `Context.__getitem__` scans frames
innermost-first and returns the first hit (§4.1). -/
def ctxLookup (dicts : List (List (String × PyVal))) (k : String) :
    Option PyVal :=
  match dicts with
  | [] => Option.none
  | d :: rest =>
      match ctxLookup rest k with
      | some v => some v
      | Option.none => alistLookup d k

/-- Set a key in a frame (Python dict assignment). -/
def alistSet (es : List (String × PyVal)) (k : String) (v : PyVal) :
    List (String × PyVal) :=
  (k, v) :: es.filter (fun kv => !(kv.1 == k))

/-- `Context.__setitem__`: assign into the top (innermost) frame. -/
def dictsSetTop (dicts : List (List (String × PyVal))) (k : String)
    (v : PyVal) : List (List (String × PyVal)) :=
  match dicts with
  | [] => [[(k, v)]]
  | [d] => [alistSet d k v]
  | d :: rest => d :: dictsSetTop rest k v

/-- Numeric path segment (sequence-index lookup applies only when the
segment parses as a non-negative integer, §3). -/
def parseNatSeg (s : String) : Option Nat :=
  if !s.data.isEmpty && s.data.all Char.isDigit then some (digitsToNat s.data)
  else Option.none

/-- Modelled from the spec: one dotted-path lookup step (§3 "Variable
Path"): mapping-key lookup, then sequence-index lookup for numeric
segments, then attribute lookup; a resulting argumentless callable is
called. Failure at any point yields the "does not exist" signal. -/
def lookupSeg (v : PyVal) (seg : String) : Option PyVal :=
  let step : Option PyVal :=
    match v with
    | .dict es => alistLookup es seg
    | .list xs =>
        match parseNatSeg seg with
        | some i => xs.get? i
        | Option.none => Option.none
    | .obj attrs => alistLookup attrs seg
    | _ => Option.none
  match step with
  | some (.callableV r) => some r
  | other => other

/-- Modelled from the spec: resolution of a dotted variable path against
the context (§4.2): the first segment scans the scope stack, each further
segment applies the lookup chain; an argumentless callable result is
called at each step; any miss degrades to "does not exist". -/
def resolvePath (ctx : ContextM) (segs : List String) : Option PyVal :=
  match segs with
  | [] => Option.none
  | k :: rest =>
      match ctxLookup ctx.dicts k with
      | Option.none => Option.none
      | some v0 =>
          let v1 := match v0 with
            | .callableV r => r
            | w => w
          rest.foldl (fun acc seg => acc.bind (fun v => lookupSeg v seg))
            (some v1)

/-- Modelled from the spec: `Variable` of `base.py` (not under `src/`):
a translation flag, the lookup segments (`none` for a parsed literal) and
the literal value (§3). -/
structure VariableM where
  translate : Bool
  lookups : Option (List String)
  literal : PyVal

/-- The `var` slot of a `FilterExpression`: a `Variable` or a raw literal
value. -/
inductive FEVar where
  | varV (v : VariableM)
  | litV (v : PyVal)

/-- Modelled from the spec: `FilterExpression` of `base.py` (not under
`src/`): a variable-or-literal plus an ordered filter chain; filters are
modelled extensionally as value transformers (§3, §6). -/
structure FilterExpressionM where
  var : FEVar
  filters : List (PyVal → PyVal)

def FilterExpressionM.is_var (fe : FilterExpressionM) : Bool :=
  match fe.var with
  | .varV _ => true
  | .litV _ => false

/-- Modelled from the spec: `VariableNode.render` of `base.py` (not under
`src/`), also standing in for `_render_var_fast` plus its fallback: the
filter expression resolves (an unresolvable variable degrades to the
empty string, the engine's default `string_if_invalid`), filters apply in
order, and the value is emitted through `render_value_in_context`
(§4.2). -/
def variableNodeRender (fe : FilterExpressionM) (ctx : ContextM) : String :=
  let obj : PyVal :=
    match fe.var with
    | .litV v => v
    | .varV vr =>
        match vr.lookups with
        | Option.none => vr.literal
        | some segs => (resolvePath ctx segs).getD (.str "")
  render_value_in_context ctx.autoescape
    (fe.filters.foldl (fun acc f => f acc) obj)

/-- Modelled from the spec: `_render_var_with_value` of `base.py` (not
under `src/`): render the filter expression with the given value standing
in for its lookup result (the no-context-write loop fast path, §4.4). -/
def renderVarWithValue (fe : FilterExpressionM) (value : PyVal)
    (ctx : ContextM) : String :=
  render_value_in_context ctx.autoescape
    (fe.filters.foldl (fun acc f => f acc) value)

/-- Modelled from the spec: `_fe_is_direct_loopvar` of `base.py` (not
under `src/`): the expression is a bare single-segment reference to the
loop variable, untranslated and unfiltered (§4.4 "loop bodies that
reference only the loop variable directly"). -/
def feIsDirectLoopvar (fe : FilterExpressionM) (loopvar0 : String) : Bool :=
  match fe.var with
  | .varV vr =>
      !vr.translate && vr.lookups == some [loopvar0] && fe.filters.isEmpty
  | .litV _ => false

/-! ## defaulttags.py: ForNode

The loop-body node universe of the model is literal text and variable
interpolations (`TextNode` / `VariableNode`); nested `{% if %}` bodies
(the LOOPIF classification) are not needed to settle the claims. -/

inductive BodyNode where
  | textNode (s : String)
  | varNode (fe : FilterExpressionM)

structure ForNodeM where
  loopvars : List String
  is_reversed : Bool
  nodelist_loop : List BodyNode
  nodelist_empty : List BodyNode

/-- `NodeList.render` over the model's body nodes (used for the empty
body and as the general-path per-node rendering). -/
def renderGeneralNode (ctx : ContextM) : BodyNode → String
  | .textNode s => s
  | .varNode fe => variableNodeRender fe ctx

def renderBody (nodes : List BodyNode) (ctx : ContextM) : String :=
  String.join (nodes.map (renderGeneralNode ctx))

/-- `len(values)` / `len(item)`: only lists, strings and dicts of the
model universe have `__len__`; anything else raises `TypeError`. -/
def pyLen : PyVal → Except PyErr Int
  | .list xs => .ok (xs.length : Int)
  | .str s => .ok (s.data.length : Int)
  | .safeStr s => .ok (s.data.length : Int)
  | .dict es => .ok (es.length : Int)
  | _ => .error .typeError

/-- Iteration order of an iterable value: list elements, string
characters, dict keys. -/
def pyIterate : PyVal → List PyVal
  | .list xs => xs
  | .str s => s.data.map (fun c => .str (String.singleton c))
  | .safeStr s => s.data.map (fun c => .str (String.singleton c))
  | .dict es => es.map (fun kv => .str kv.1)
  | _ => []

/-- `if not hasattr(values, "__len__"): values = list(values)` — values
with a length are kept (their elements are their iteration order), any
other value of the model universe is not iterable, so `list()` raises
`TypeError`. -/
def pyMaterialize (v : PyVal) : Except PyErr (List PyVal) :=
  match v with
  | .list xs => .ok xs
  | .str s => .ok (pyIterate (.str s))
  | .safeStr s => .ok (pyIterate (.safeStr s))
  | .dict es => .ok (pyIterate (.dict es))
  | _ => .error .typeError

/-- `len(item)` with the `except TypeError: len_item = 1` handler of
`ForNode.render`. -/
def lenOr1 (item : PyVal) : Int :=
  match pyLen item with
  | .ok l => l
  | .error _ => 1

/-- The multi-variable unpacking step of `ForNode.render` (lines
778-795): the element length (1 when `len` raises `TypeError`) must
exactly equal the loop-variable count, else `ValueError` is raised;
on success the bindings are `dict(zip(self.loopvars, item))`. -/
def unpackItem (loopvars : List String) (item : PyVal) :
    Except PyErr (List (String × PyVal)) :=
  if (loopvars.length : Int) != lenOr1 item then .error .valueError
  else .ok (loopvars.zip (pyIterate item))

/-- The forloop frame visible in the context during iteration `i` of `n`:
an immutable snapshot of `CForloopContext` (whose `__getitem__` computes
exactly these fields, see `cforloop_frame_invariants`). -/
def frameVal (i n : Int) (parentloop : PyVal) : PyVal :=
  .dict [("counter", .int (i + 1)), ("counter0", .int i),
    ("revcounter", .int (n - i)), ("revcounter0", .int (n - i - 1)),
    ("first", .bool (i == 0)), ("last", .bool (i == n - 1)),
    ("length", .int n), ("parentloop", parentloop)]

/-- The pre-classification tags of `ForNode.render` (lines 395-430):
`0 = TEXT`, `1 = VAR`, `2 = LOOPATTR_NOFILTER`, `3 = LOOPATTR_FILTER`
(the tag keeps the node's own expression for the fallback renders). -/
inductive NodeTag where
  | text (s : String)
  | varTag (fe : FilterExpressionM)
  | loopattrNoFilter (fe : FilterExpressionM) (attr : String)
  | loopattrFilter (fe : FilterExpressionM) (attr : String)

/-- The per-node classification loop of `ForNode.render` (lines 407-430):
a `{{ loopvar.attr }}` pattern — an untranslated two-segment lookup whose
head is the loop variable — becomes LOOPATTR with zero or one filter,
everything else stays a regular VAR. -/
def classifyNode (loopvar0 : String) : BodyNode → NodeTag
  | .textNode s => .text s
  | .varNode fe =>
      match fe.var with
      | .varV vr =>
          if !vr.translate then
            match vr.lookups with
            | some [a, b] =>
                if a == loopvar0 then
                  if fe.filters.length == 0 then .loopattrNoFilter fe b
                  else if fe.filters.length == 1 then .loopattrFilter fe b
                  else .varTag fe
                else .varTag fe
            | _ => .varTag fe
          else .varTag fe
      | .litV _ => .varTag fe

/-- `item[attr]` for a non-dict item of the model universe: strings,
lists (a non-numeric subscript), plain objects and scalars all raise
`TypeError` on a string subscript. -/
def pySubscript (item : PyVal) (attr : String) : Except PyErr PyVal :=
  match item with
  | .dict es =>
      match alistLookup es attr with
      | some v => .ok v
      | Option.none => .error .keyError
  | _ => .error .typeError

/-- `getattr(item, attr)`: only `obj` values carry attributes in the
model; a missing attribute raises `AttributeError`. -/
def pyGetattr (item : PyVal) (attr : String) : Except PyErr PyVal :=
  match item with
  | .obj attrs =>
      match alistLookup attrs attr with
      | some v => .ok v
      | Option.none => .error .attributeError
  | _ => .error .attributeError

/-- The LOOPATTR attribute fetch of `ForNode.render` (lines 579-592):
when `type(item) is dict` the subscript is **unguarded** — a missing key
raises `KeyError` out of `render`; otherwise `item[attr]` is tried with
`(TypeError, KeyError, IndexError)` caught, then `getattr` with
`(TypeError, AttributeError)` caught, finally falling back to the node's
own render (`ok none`). -/
def loopattrLookup (item : PyVal) (attr : String) :
    Except PyErr (Option PyVal) :=
  match item with
  | .dict es =>
      match alistLookup es attr with
      | some v => .ok (some v)
      | Option.none => .error .keyError
  | _ =>
      match pySubscript item attr with
      | .ok v => .ok (some v)
      | .error e =>
          if e = .typeError ∨ e = .keyError ∨ e = .indexError then
            match pyGetattr item attr with
            | .ok v => .ok (some v)
            | .error e2 =>
                if e2 = .typeError ∨ e2 = .attributeError then
                  .ok Option.none
                else .error e2
          else .error e

/-- One classified node rendered for one item on the LOOPATTR path
(lines 575-772, restricted to the model's node universe; the `float`
branch concerns values outside the model).  `ctx` already carries
`top[loopvar0] = item` and the forloop frame, as the source has written
them before dispatching. -/
def renderLoopattrNode (ctx : ContextM) (item : PyVal) :
    NodeTag → Except PyErr String
  | .text s => .ok s
  | .varTag fe => .ok (variableNodeRender fe ctx)
  | .loopattrNoFilter fe attr =>
      match loopattrLookup item attr with
      | .error e => .error e
      | .ok Option.none => .ok (variableNodeRender fe ctx)
      | .ok (some av) =>
          match av with
          | .str s => .ok (if ctx.autoescape then fastEscapeStr s else s)
          | .safeStr s => .ok s
          | .int n => .ok (toString n)
          | .callableV r => .ok (variableNodeRender fe ctx)
          | other => .ok (render_value_in_context ctx.autoescape other)
  | .loopattrFilter fe attr =>
      match loopattrLookup item attr with
      | .error e => .error e
      | .ok Option.none => .ok (variableNodeRender fe ctx)
      | .ok (some av) =>
          match av with
          | .callableV r => .ok (variableNodeRender fe ctx)
          | _ => .ok (renderVarWithValue fe av ctx)

/-- The nodes of one iteration on the LOOPATTR path. -/
def renderTagsForItem (ctx : ContextM) (item : PyVal) :
    List NodeTag → Except PyErr (List String)
  | [] => .ok []
  | t :: ts =>
      match renderLoopattrNode ctx item t with
      | .error e => .error e
      | .ok s =>
          match renderTagsForItem ctx item ts with
          | .error e => .error e
          | .ok more => .ok (s :: more)

/-- The OPTIMIZED (LOOPATTR) loop of `ForNode.render` (lines 566-772):
per item, write `top[loopvar0] = item`, advance the forloop frame, then
dispatch every classified node. -/
def renderLoopattrItems (ctx1 : ContextM) (parentloop : PyVal) (n : Int)
    (loopvar0 : String) (tags : List NodeTag) :
    List PyVal → Int → Except PyErr (List String)
  | [], _ => .ok []
  | item :: rest, i =>
      let ctxIter : ContextM :=
        { ctx1 with dicts :=
            dictsSetTop (dictsSetTop ctx1.dicts "forloop"
              (frameVal i n parentloop)) loopvar0 item }
      match renderTagsForItem ctxIter item tags with
      | .error e => .error e
      | .ok outs =>
          match renderLoopattrItems ctx1 parentloop n loopvar0 tags rest
              (i + 1) with
          | .error e => .error e
          | .ok more => .ok (outs ++ more)

/-- The ULTRA-FAST loop of `ForNode.render` (lines 548-565): no context
writes; text nodes emit their text, variable nodes render with the item
value passed directly. -/
def renderUltraNode (ctx : ContextM) (item : PyVal) : BodyNode → String
  | .textNode s => s
  | .varNode fe => renderVarWithValue fe item ctx

/-- The general per-iteration loop of `ForNode.render` (the final else
branch, lines 773-822, non-debug): unpack-check-and-push or write the
loop variable into the top frame, render every node through the general
resolution path, pop the unpack frame. -/
def renderGeneralItems (ctx1 : ContextM) (parentloop : PyVal) (n : Int)
    (loopvars : List String) (unpack : Bool) (nodes : List BodyNode) :
    List PyVal → Int → Except PyErr (List String)
  | [], _ => .ok []
  | item :: rest, i =>
      let ctxFrame : ContextM :=
        { ctx1 with dicts :=
            dictsSetTop ctx1.dicts "forloop" (frameVal i n parentloop) }
      let step : Except PyErr (List String) :=
        if unpack then
          match unpackItem loopvars item with
          | .error e => .error e
          | .ok bs =>
              .ok (nodes.map (renderGeneralNode
                { ctxFrame with dicts := ctxFrame.dicts ++ [bs] }))
        else
          .ok (nodes.map (renderGeneralNode
            { ctxFrame with
              dicts := (dictsSetTop ctxFrame.dicts (loopvars.headD "") item) }))
      match step with
      | .error e => .error e
      | .ok outs =>
          match renderGeneralItems ctx1 parentloop n loopvars unpack nodes
              rest (i + 1) with
          | .error e => .error e
          | .ok more => .ok (outs ++ more)

/-- `ForNode.render` (lines 330-825, non-debug, over the model's node
universe).  `seqR` is the outcome of
`self.sequence.resolve(context, ignore_failures=True)` (`none` when
resolution failed and returned `None`).  The prologue reads the parent
loop frame, pushes a fresh scope, normalizes the sequence
(`None → []`, materialization raising `TypeError` for non-iterables),
renders the empty body for an empty sequence, else dispatches to the
ultra-fast, LOOPATTR or general loop exactly as the source does. -/
def ForNodeM.render (nd : ForNodeM) (ctx : ContextM)
    (seqR : Option PyVal) : Except PyErr String :=
  let parentloop := (ctxLookup ctx.dicts "forloop").getD (.dict [])
  let ctx1 : ContextM := { ctx with dicts := ctx.dicts ++ [[]] }
  match pyMaterialize (seqR.getD (.list [])) with
  | .error e => .error e
  | .ok values0 =>
      if values0.length < 1 then .ok (renderBody nd.nodelist_empty ctx1)
      else
        let len_values : Int := (values0.length : Int)
        let values := if nd.is_reversed then values0.reverse else values0
        let unpack := decide (1 < nd.loopvars.length)
        let loopvar0 := nd.loopvars.headD ""
        let needs_ctx_write := unpack ||
          !(nd.nodelist_loop.all (fun nb =>
            match nb with
            | .textNode _ => true
            | .varNode fe => feIsDirectLoopvar fe loopvar0))
        if !needs_ctx_write then
          .ok (String.join (values.map (fun item =>
            String.join (nd.nodelist_loop.map (renderUltraNode ctx1 item)))))
        else if !unpack then
          match renderLoopattrItems ctx1 parentloop len_values loopvar0
              (nd.nodelist_loop.map (classifyNode loopvar0)) values 0 with
          | .error e => .error e
          | .ok outs => .ok (String.join outs)
        else
          match renderGeneralItems ctx1 parentloop len_values nd.loopvars
              unpack nd.nodelist_loop values 0 with
          | .error e => .error e
          | .ok outs => .ok (String.join outs)

/-- What the general per-iteration scope-write-and-resolve path (the
final else branch of `ForNode.render`) produces on the same sequence and
context — the reference the fast paths are claimed byte-for-byte
equivalent to. -/
def ForNodeM.renderGeneralPath (nd : ForNodeM) (ctx : ContextM)
    (seqR : Option PyVal) : Except PyErr String :=
  let parentloop := (ctxLookup ctx.dicts "forloop").getD (.dict [])
  let ctx1 : ContextM := { ctx with dicts := ctx.dicts ++ [[]] }
  match pyMaterialize (seqR.getD (.list [])) with
  | .error e => .error e
  | .ok values0 =>
      if values0.length < 1 then .ok (renderBody nd.nodelist_empty ctx1)
      else
        let len_values : Int := (values0.length : Int)
        let values := if nd.is_reversed then values0.reverse else values0
        let unpack := decide (1 < nd.loopvars.length)
        match renderGeneralItems ctx1 parentloop len_values nd.loopvars
            unpack nd.nodelist_loop values 0 with
        | .error e => .error e
        | .ok outs => .ok (String.join outs)

/-- C1 (divergence at the failing input): the loop
`{% for item in items %}{{ item.attr }}{% endfor %}` over
`items = [{"attr": "x"}, {}]` is classified onto the LOOPATTR fast path,
whose unguarded dict subscript raises `KeyError` on the second element —
while the general per-iteration scope-write-and-resolve path (the final
else branch) renders `"x"` (the missing key resolves silently to the
empty string). -/
theorem fornode_loopattr_dict_missing_key_diverges :
    let fe : FilterExpressionM :=
      { var := FEVar.varV
          { translate := false, lookups := some ["item", "attr"],
            literal := .none },
        filters := [] }
    let nd : ForNodeM :=
      { loopvars := ["item"], is_reversed := false,
        nodelist_loop := [.varNode fe], nodelist_empty := [] }
    let ctx : ContextM := { dicts := [[]], autoescape := true }
    let seq : PyVal := .list [.dict [("attr", .str "x")], .dict []]
    nd.render ctx (some seq) = .error .keyError ∧
    nd.renderGeneralPath ctx (some seq) = .ok "x" :=
  ⟨rfl, rfl⟩

/-- The iteration order of a value with a length has exactly that
length. -/
theorem pyIterate_length (item : PyVal) (l : Int) (h : pyLen item = .ok l) :
    ((pyIterate item).length : Int) = l := by
  cases item <;> simp [pyLen, pyIterate] at h ⊢ <;> omega

/-- Successful multi-variable unpacking binds exactly one value per loop
variable — it never truncates or pads. -/
theorem unpackItem_ok_length (loopvars : List String) (item : PyVal)
    (bs : List (String × PyVal)) (hu : 1 < loopvars.length)
    (h : unpackItem loopvars item = .ok bs) :
    bs.length = loopvars.length := by
  unfold unpackItem at h
  split at h
  · cases h
  · next hc =>
    have hlen : (loopvars.length : Int) = lenOr1 item := by
      simpa [bne] using hc
    injection h with h2
    subst h2
    rw [List.length_zip]
    cases hpl : pyLen item with
    | ok l =>
      have hl1 : lenOr1 item = l := by
        unfold lenOr1
        rw [hpl]
      rw [hl1] at hlen
      have h2 := pyIterate_length item l hpl
      omega
    | error e =>
      have hl1 : lenOr1 item = 1 := by
        unfold lenOr1
        rw [hpl]
      rw [hl1] at hlen
      omega

/-- If some element of the remaining items has a mismatched length, the
unpacking general loop raises `ValueError`. -/
theorem renderGeneralItems_mismatch (ctx1 : ContextM) (parentloop : PyVal)
    (n : Int) (loopvars : List String) (nodes : List BodyNode)
    (items : List PyVal) :
    ∀ i : Int,
      (∃ x ∈ items, lenOr1 x ≠ (loopvars.length : Int)) →
      renderGeneralItems ctx1 parentloop n loopvars true nodes items i =
        .error .valueError := by
  induction items with
  | nil =>
    intro i h
    simp at h
  | cons item rest ih =>
    intro i h
    by_cases hx : lenOr1 item = (loopvars.length : Int)
    · have hrest : ∃ x ∈ rest, lenOr1 x ≠ (loopvars.length : Int) := by
        rcases h with ⟨x, hmem, hne⟩
        rcases List.mem_cons.mp hmem with heq | hmem2
        · exact absurd (heq ▸ hx) hne
        · exact ⟨x, hmem2, hne⟩
      have hok : unpackItem loopvars item =
          .ok (loopvars.zip (pyIterate item)) := by
        have hcond : ¬(((loopvars.length : Int) != lenOr1 item) = true) := by
          simp only [bne_iff_ne, ne_eq, not_not]
          exact hx.symm
        unfold unpackItem
        rw [if_neg hcond]
      simp only [renderGeneralItems, hok]
      rw [ih (i + 1) hrest]
      simp
    · have herr : unpackItem loopvars item = .error .valueError := by
        have hcond : (((loopvars.length : Int) != lenOr1 item) = true) := by
          simp only [bne_iff_ne, ne_eq]
          exact fun hc => hx hc.symm
        unfold unpackItem
        rw [if_pos hcond]
      simp only [renderGeneralItems, herr]
      simp

/-- C6: a for-loop declaring more than one loop variable raises a
`ValueError` ("Need N values to unpack…") as soon as some element of the
resolved sequence does not have length exactly equal to the
loop-variable count (elements that are not sequences count as length 1);
and whenever unpacking succeeds the bindings pair exactly one value per
loop variable — nothing is silently truncated or padded. -/
theorem fornode_unpack_mismatch_raises (nd : ForNodeM) (ctx : ContextM)
    (v : PyVal) (values : List PyVal)
    (hu : 1 < nd.loopvars.length)
    (hmat : pyMaterialize v = .ok values)
    (hbad : ∃ x ∈ (if nd.is_reversed then values.reverse else values),
      lenOr1 x ≠ (nd.loopvars.length : Int)) :
    nd.render ctx (some v) = .error .valueError ∧
    (∀ item bs, unpackItem nd.loopvars item = .ok bs →
      bs.length = nd.loopvars.length) := by
  constructor
  · have hne : ¬(values.length < 1) := by
      rcases hbad with ⟨x, hmem, _⟩
      rcases values with _ | ⟨y, ys⟩
      · simp at hmem
      · simp
    have hup : decide (1 < nd.loopvars.length) = true := decide_eq_true hu
    simp only [ForNodeM.render, Option.getD_some, hmat, if_neg hne, hup,
      Bool.true_or, Bool.not_true]
    rw [renderGeneralItems_mismatch _ _ _ _ _ _ 0 hbad]
    simp
  · intro item bs h
    exact unpackItem_ok_length nd.loopvars item bs hu h

/-- Closed instance of `fornode_unpack_mismatch_raises`:
`{% for a, b in items %}` over `items = [[1]]` (one element of length 1
for two loop variables) raises `ValueError`. -/
theorem fornode_unpack_mismatch_raises_witness :
    ForNodeM.render
      { loopvars := ["a", "b"], is_reversed := false,
        nodelist_loop := [], nodelist_empty := [] }
      { dicts := [[]], autoescape := true }
      (some (.list [.list [.int 1]])) = .error .valueError :=
  (fornode_unpack_mismatch_raises
    { loopvars := ["a", "b"], is_reversed := false,
      nodelist_loop := [], nodelist_empty := [] }
    { dicts := [[]], autoescape := true }
    (.list [.list [.int 1]]) [.list [.int 1]]
    (by decide) rfl
    ⟨.list [.int 1], by simp, by decide⟩).1

/-- C7 (amended): when resolving the source expression fails
(`resolve(…, ignore_failures=True)` returns `None`), the loop renders
exactly the empty body in the pushed scope — nothing when no empty body
was given — without raising; but when the resolved value is non-`None`
and not iterable (e.g. an `int`), `list(values)` raises `TypeError`
rather than treating it as empty. -/
theorem fornode_resolution_failure_renders_empty (nd : ForNodeM)
    (ctx : ContextM) (n : Int) :
    nd.render ctx Option.none =
      .ok (renderBody nd.nodelist_empty
        { ctx with dicts := ctx.dicts ++ [[]] }) ∧
    (nd.nodelist_empty = [] → nd.render ctx Option.none = .ok "") ∧
    nd.render ctx (some (.int n)) = .error .typeError := by
  refine ⟨rfl, ?_, rfl⟩
  intro h
  rw [show nd.render ctx Option.none =
    .ok (renderBody nd.nodelist_empty
      { ctx with dicts := ctx.dicts ++ [[]] }) from rfl, h]
  rfl

/-- Closed instance of `fornode_resolution_failure_renders_empty`: an
unresolvable source renders the empty body text. -/
theorem fornode_resolution_failure_renders_empty_witness :
    ForNodeM.render
      { loopvars := ["x"], is_reversed := false,
        nodelist_loop := [], nodelist_empty := [.textNode "empty"] }
      { dicts := [[]], autoescape := true } Option.none = .ok "empty" := by
  rw [(fornode_resolution_failure_renders_empty
    { loopvars := ["x"], is_reversed := false,
      nodelist_loop := [], nodelist_empty := [.textNode "empty"] }
    { dicts := [[]], autoescape := true } 0).1]
  rfl

/-- C7 counterexample: a source resolving to the non-iterable `5`
(`{% for x in n %}…{% empty %}empty{% endfor %}` with `n = 5`) makes
`render` raise `TypeError` — it is not treated as the empty sequence and
the empty body is not rendered. -/
theorem fornode_noniterable_raises :
    ForNodeM.render
      { loopvars := ["x"], is_reversed := false,
        nodelist_loop := [], nodelist_empty := [.textNode "empty"] }
      { dicts := [[]], autoescape := true } (some (.int 5)) =
      .error .typeError := rfl
